import Mathlib

/-!
Verification development for the Mobileraker Companion (Rinkhals) core.

Two parts are embedded:

* the data synchronization engine (`DataSyncService`).  The repository ships
  only the engine's test suite under `src/tests/data_sync_client_test.py`;
  the engine module itself is not under `src/`, so its data model and
  operations are modelled from the design document (sections 3, 4.1, 4.3 and
  4.4).  Every such definition carries a doc comment starting with
  `Modelled from the spec:`.

* the HTTP helper module `mobileraker/util/simple_requests.py`, embedded
  directly from the source: `Response.raise_for_status`, `Response.text`
  (UTF-8 decoding with replacement), `json_dumps` and the request assembly
  performed by `post`.

Python dictionaries are modelled as association lists, byte strings as
`List Nat` (each entry a byte value), numbers as rationals.
-/

/-- A JSON-like structured value: the shape of payloads exchanged with the
remote controller and of the `json=` argument of `post`.  Python numbers
are modelled as rationals (integers are rationals with denominator 1). -/
inductive Value where
  | null
  | bool (b : Bool)
  | num (q : Rat)
  | str (s : String)
  | arr (elems : List Value)
  | obj (fields : List (String × Value))

/-- Key lookup in a JSON object's field list (Python `dict` access; keys in a
Python dict are unique, so first-match lookup is faithful). -/
def lookupField : List (String × Value) → String → Option Value
  | [], _ => none
  | (k, v) :: rest, key => if k = key then some v else lookupField rest key

/-- Field access on a structured value: `none` unless the value is an object
that has the key. -/
def Value.getField (v : Value) (key : String) : Option Value :=
  match v with
  | Value.obj fields => lookupField fields key
  | _ => none

/-- Defensive extraction of a text value: `none` unless the value is a
string. -/
def Value.asStr : Value → Option String
  | Value.str s => some s
  | _ => none

/-- Defensive extraction of a numeric value: `none` unless the value is a
number. -/
def Value.asNum : Value → Option Rat
  | Value.num q => some q
  | _ => none

/-- Modelled from the spec: the PrintStats State Record (design document,
section 3): `filename` is optional text, default absent; `state` is status
text, default "error". -/
structure PrintStats where
  filename : Option String := none
  state : String := "error"
  deriving DecidableEq

/-- Modelled from the spec: the DisplayStatus State Record (design document,
section 3): `message` is optional text, default absent. -/
structure DisplayStatus where
  message : Option String := none
  deriving DecidableEq

/-- Modelled from the spec: the VirtualSDCard State Record (design document,
section 3): `progress` is a fraction, default 0. -/
structure VirtualSDCard where
  progress : Rat := 0
  deriving DecidableEq

/-- Modelled from the spec: the synchronization engine (`DataSyncService`,
missing from `src/`; only its tests are shipped).  It owns one State Record
per tracked printer subsystem, created at construction with default values,
plus the engine-level `klippy_ready` flag, false until a readiness query
explicitly reports ready.  The ServerInfo record's connection/readiness
indicator is represented by the `klippy_ready` flag itself. -/
structure DataSyncService where
  name : String := "_Default"
  klippy_ready : Bool := false
  print_stats : PrintStats := {}
  display_status : DisplayStatus := {}
  virtual_sdcard : VirtualSDCard := {}
  deriving DecidableEq

/-- Modelled from the spec: construction of the engine.  The two
construction signatures (new caller convention with an explicit printer
name, legacy convention without one) resolve to a single configuration with
an optional, defaulted label (design document, section 9); the label does
not affect any State Record or the `klippy_ready` flag. -/
def mkDataSyncService (printer_name : Option String) : DataSyncService :=
  { name := printer_name.getD "_Default" }

/-- Modelled from the spec: defensive decode of a `print_stats` payload
value (design document, section 4.3): a field present with the recognized
type is taken; a missing field or one of unexpected type is treated as
absent and leaves the existing value. -/
def parsePrintStats (v : Value) (r : PrintStats) : PrintStats :=
  { filename := (((v.getField "filename").bind Value.asStr).map some).getD r.filename,
    state := ((v.getField "state").bind Value.asStr).getD r.state }

/-- Modelled from the spec: defensive decode of a `display_status` payload
value (design document, section 4.3). -/
def parseDisplayStatus (v : Value) (r : DisplayStatus) : DisplayStatus :=
  { message := (((v.getField "message").bind Value.asStr).map some).getD r.message }

/-- Modelled from the spec: defensive decode of a `virtual_sdcard` payload
value (design document, section 4.3). -/
def parseVirtualSDCard (v : Value) (r : VirtualSDCard) : VirtualSDCard :=
  { progress := ((v.getField "progress").bind Value.asNum).getD r.progress }

/-- Modelled from the spec: `applyStatus` / `_parse_objects` (design
document, section 4.3).  For each known object name present in the payload
the recognized fields are extracted defensively; object names not present
are no-ops; unknown object names are ignored.  The operation is a total
pure function: in the embedding this is the rendering of "performs no I/O
and cannot fail with an exception". -/
def DataSyncService.parse_objects (svc : DataSyncService)
    (status : List (String × Value)) : DataSyncService :=
  { svc with
    print_stats :=
      match lookupField status "print_stats" with
      | some v => parsePrintStats v svc.print_stats
      | none => svc.print_stats,
    display_status :=
      match lookupField status "display_status" with
      | some v => parseDisplayStatus v svc.display_status
      | none => svc.display_status,
    virtual_sdcard :=
      match lookupField status "virtual_sdcard" with
      | some v => parseVirtualSDCard v svc.virtual_sdcard
      | none => svc.virtual_sdcard }

/-- Modelled from the spec: the deterministic remote controller seen through
the RPC Client (design document, section 6): the response to the n-th
readiness query, the object inventory response, and the bulk status
response as a function of the requested object name list. -/
structure Remote where
  server_info : Nat → Value
  objects_list : List String
  status_for : List String → List (String × Value)

/-- Extraction of the readiness indicator from a readiness query response:
the `klippy_state` field, when present as text. -/
def klippyState (v : Value) : Option String :=
  (v.getField "klippy_state").bind Value.asStr

/-- Modelled from the spec: the Readiness Gate poll loop (design document,
section 4.1), polling from attempt index `n` with `fuel` polls remaining
(the configured timeout divided by the bounded non-zero poll interval).
True when some polled response within the bound reports state "ready"; any
non-ready or unparseable response keeps polling. -/
def pollReady (remote : Remote) : Nat → Nat → Bool
  | _, 0 => false
  | n, fuel + 1 =>
    if klippyState (remote.server_info n) = some "ready" then true
    else pollReady remote (n + 1) fuel

/-- Modelled from the spec: the error taxonomy surfaced by `resync` (design
document, section 7); only the readiness bound is modelled, transport-level
failures being the collaborator's. -/
inductive SyncError where
  | timeout
  deriving DecidableEq

/-- Modelled from the spec: `resync()` (design document, section 4.4).
Readiness is re-verified on every call; on a confirmed ready response the
engine sets `klippy_ready`, obtains the inventory, queries status for it
and folds the payload into the State Records; on bounded-wait exhaustion it
fails with `Timeout`, leaves every State Record at its last known value and
leaves `klippy_ready` false.  `fuel` is the number of polls the configured
timeout allows. -/
def DataSyncService.resync (svc : DataSyncService) (remote : Remote)
    (fuel : Nat) : DataSyncService × Option SyncError :=
  if pollReady remote 0 fuel then
    (({ svc with klippy_ready := true }).parse_objects
        (remote.status_for remote.objects_list), none)
  else
    ({ svc with klippy_ready := false }, some SyncError.timeout)

/-- A concrete remote whose readiness query always reports "not_ready",
used to instantiate the timeout theorem. -/
def notReadyRemote : Remote :=
  { server_info := fun _ => Value.obj [("klippy_state", Value.str "not_ready")],
    objects_list := [],
    status_for := fun _ => [] }

/-- A concrete remote that reports readiness immediately, an empty object
inventory and an empty status payload, used to instantiate the successful
resync theorem. -/
def readyRemote : Remote :=
  { server_info := fun _ => Value.obj [("klippy_state", Value.str "ready")],
    objects_list := [],
    status_for := fun _ => [] }

/-- The exception hierarchy of `simple_requests`: `RequestException` base,
with `Timeout`, `ConnectionError` and `HTTPError` subclasses; each carries
its message. -/
inductive SRError where
  | requestException (msg : String)
  | httpError (msg : String)
  | timeout (msg : String)
  | connectionError (msg : String)
  deriving DecidableEq

/-- The simplified response object of `simple_requests` (`Response`): status
code, response headers and raw body bytes (each entry one byte value). -/
structure Response where
  status_code : Int
  headers : List (String × String)
  content : List Nat
  deriving DecidableEq

/-- Whether a byte is a UTF-8 continuation byte (0x80 to 0xBF). -/
def contByte (b : Nat) : Bool :=
  0x80 ≤ b && b ≤ 0xBF

/-- The Unicode replacement character U+FFFD used by
`decode("utf-8", errors="replace")`. -/
def replChar : Char :=
  Char.ofNat 0xFFFD

/-- One step of UTF-8 decoding with replacement, given the lead byte and
the remaining bytes: the decoded (or replacement) character and the bytes
left.  Ill-formed input follows the maximal-subpart policy of CPython's
UTF-8 decoder with `errors="replace"`: a maximal valid prefix of a
multi-byte sequence is consumed by one replacement character, while an
invalid lead byte consumes only itself.  The second-byte range restrictions
on 0xE0/0xED and 0xF0/0xF4 leads exclude overlong encodings, surrogates and
code points above U+10FFFF, so every decoded character is a valid scalar
value. -/
def decodeStep (b : Nat) (rest : List Nat) : Char × List Nat :=
  if b < 0x80 then (Char.ofNat b, rest)
  else if b < 0xC2 then (replChar, rest)
  else if b ≤ 0xDF then
    match rest with
    | c1 :: r1 =>
      if contByte c1 then (Char.ofNat ((b - 0xC0) * 0x40 + (c1 - 0x80)), r1)
      else (replChar, c1 :: r1)
    | [] => (replChar, [])
  else if b ≤ 0xEF then
    let lo := if b = 0xE0 then 0xA0 else 0x80
    let hi := if b = 0xED then 0x9F else 0xBF
    match rest with
    | c1 :: r1 =>
      if lo ≤ c1 && c1 ≤ hi then
        match r1 with
        | c2 :: r2 =>
          if contByte c2 then
            (Char.ofNat ((b - 0xE0) * 0x1000 + (c1 - 0x80) * 0x40 + (c2 - 0x80)), r2)
          else (replChar, c2 :: r2)
        | [] => (replChar, [])
      else (replChar, c1 :: r1)
    | [] => (replChar, [])
  else if b ≤ 0xF4 then
    let lo := if b = 0xF0 then 0x90 else 0x80
    let hi := if b = 0xF4 then 0x8F else 0xBF
    match rest with
    | c1 :: r1 =>
      if lo ≤ c1 && c1 ≤ hi then
        match r1 with
        | c2 :: r2 =>
          if contByte c2 then
            match r2 with
            | c3 :: r3 =>
              if contByte c3 then
                (Char.ofNat ((b - 0xF0) * 0x40000 + (c1 - 0x80) * 0x1000
                  + (c2 - 0x80) * 0x40 + (c3 - 0x80)), r3)
              else (replChar, c3 :: r3)
            | [] => (replChar, [])
          else (replChar, c2 :: r2)
        | [] => (replChar, [])
      else (replChar, c1 :: r1)
    | [] => (replChar, [])
  else (replChar, rest)

/-- UTF-8 decoding loop with replacement.  `fuel` bounds the number of
decoded characters; since every step consumes at least its lead byte, fuel
equal to the byte count (as supplied by `utf8DecodeReplace`) never runs out
before the input is exhausted. -/
def decodeAux : Nat → List Nat → List Char
  | 0, _ => []
  | _, [] => []
  | fuel + 1, b :: rest =>
    let s := decodeStep b rest
    s.1 :: decodeAux fuel s.2

/-- `bytes.decode("utf-8", errors="replace")`: total UTF-8 decoding, every
ill-formed subsequence replaced by U+FFFD. -/
def utf8DecodeReplace (bytes : List Nat) : List Char :=
  decodeAux bytes.length bytes

/-- `Response.text`: the body bytes decoded as UTF-8 with replacement
(`self.content.decode("utf-8", errors="replace")`). -/
def Response.text (r : Response) : String :=
  String.mk (utf8DecodeReplace r.content)

/-- `Response.raise_for_status`: raises `HTTPError` with the formatted
message exactly when the status code is at least 400, otherwise returns
normally (the response is not mutated: the embedding is a pure function of
the response). -/
def Response.raise_for_status (r : Response) : Except SRError Unit :=
  if 400 ≤ r.status_code then
    Except.error (SRError.httpError
      ("HTTP " ++ toString r.status_code ++ ": " ++ r.text))
  else
    Except.ok ()

/-- Lowercase hexadecimal digit for a value below 16. -/
def hexDigit (n : Nat) : Char :=
  if n < 10 then Char.ofNat (48 + n) else Char.ofNat (87 + n)

/-- Four lowercase hexadecimal digits. -/
def hex4 (n : Nat) : String :=
  String.mk [hexDigit (n / 4096 % 16), hexDigit (n / 256 % 16),
    hexDigit (n / 16 % 16), hexDigit (n % 16)]

/-- A JSON `\uXXXX` escape, using a surrogate pair for code points above
U+FFFF, as `json.dumps` does with its default `ensure_ascii=True`. -/
def uEscape (n : Nat) : String :=
  if n ≤ 0xFFFF then "\\u" ++ hex4 n
  else
    "\\u" ++ hex4 (0xD800 + (n - 0x10000) / 0x400)
      ++ "\\u" ++ hex4 (0xDC00 + (n - 0x10000) % 0x400)

/-- Escaping of one character inside a JSON string literal, following
`json.dumps` with its defaults: the two-character escapes for quote,
backslash and the common control characters, `\uXXXX` escapes for every
other character outside the printable ASCII range 0x20 to 0x7E. -/
def jsonEscapeChar (c : Char) : String :=
  if c = '\"' then "\\\""
  else if c = '\\' then "\\\\"
  else if c = '\n' then "\\n"
  else if c = '\r' then "\\r"
  else if c = '\t' then "\\t"
  else if c.toNat = 8 then "\\b"
  else if c.toNat = 12 then "\\f"
  else if c.toNat < 0x20 || 0x7E < c.toNat then uEscape c.toNat
  else String.singleton c

/-- A JSON string literal for `s`, per `json.dumps` defaults. -/
def quoteJson (s : String) : String :=
  "\"" ++ String.join (s.data.map jsonEscapeChar) ++ "\""

/-- Decimal expansion of the fractional part of a rational in `[0, 1)`,
up to `n` digits, stopping when the remainder is zero. -/
def fracDigits : Rat → Nat → String
  | _, 0 => ""
  | q, n + 1 =>
    if q = 0 then ""
    else
      toString ⌊q * 10⌋ ++ fracDigits (q * 10 - (⌊q * 10⌋ : Rat)) n

/-- Decimal rendering of a non-integral rational, integer part dot
fractional part.  This models Python float repr for the
decimally-terminating values that actually occur; exact float repr is not
representable in the embedding and no claim depends on it. -/
def decimalRepr (q : Rat) : String :=
  (if q < 0 then "-" else "") ++ toString ⌊|q|⌋ ++ "." ++
    (if |q| - (⌊|q|⌋ : Rat) = 0 then "0"
     else fracDigits (|q| - (⌊|q|⌋ : Rat)) 17)

/-- JSON number rendering: integers (denominator 1) print as Python ints,
other rationals as terminating decimals (see `decimalRepr`). -/
def numRepr (q : Rat) : String :=
  if q.den = 1 then toString q.num else decimalRepr q

/-- `json.dumps(payload)` with default arguments: item separator ", ", key
separator ": ", `ensure_ascii=True`. -/
def jsonSerialize : Value → String
  | Value.null => "null"
  | Value.bool b => if b then "true" else "false"
  | Value.num q => numRepr q
  | Value.str s => quoteJson s
  | Value.arr elems =>
    "[" ++ String.intercalate ", "
      (elems.attach.map (fun e => jsonSerialize e.1)) ++ "]"
  | Value.obj fields =>
    "\x7b" ++ String.intercalate ", "
      (fields.attach.map
        (fun f => quoteJson f.1.1 ++ ": " ++ jsonSerialize f.1.2)) ++ "\x7d"
decreasing_by
  · have h1 := List.sizeOf_lt_of_mem e.2
    simp only [Value.arr.sizeOf_spec]
    omega
  · have h1 := List.sizeOf_lt_of_mem f.2
    have h2 : sizeOf (f.1).2 < sizeOf f.1 := by
      obtain ⟨p, hp⟩ := f
      obtain ⟨a, b⟩ := p
      simp only [Prod.mk.sizeOf_spec]
      omega
    simp only [Value.obj.sizeOf_spec]
    omega

/-- UTF-8 encoding of one character. -/
def utf8EncodeChar (c : Char) : List Nat :=
  if c.toNat < 0x80 then [c.toNat]
  else if c.toNat < 0x800 then
    [0xC0 + c.toNat / 0x40, 0x80 + c.toNat % 0x40]
  else if c.toNat < 0x10000 then
    [0xE0 + c.toNat / 0x1000, 0x80 + c.toNat / 0x40 % 0x40, 0x80 + c.toNat % 0x40]
  else
    [0xF0 + c.toNat / 0x40000, 0x80 + c.toNat / 0x1000 % 0x40,
     0x80 + c.toNat / 0x40 % 0x40, 0x80 + c.toNat % 0x40]

/-- UTF-8 encoding of a string (Python `str.encode("utf-8")`). -/
def utf8Encode (s : String) : List Nat :=
  (s.data.map utf8EncodeChar).flatten

/-- `json_dumps`: serialise the payload to JSON bytes using UTF-8 encoding
(`json.dumps(payload).encode("utf-8")`). -/
def json_dumps (payload : Value) : List Nat :=
  utf8Encode (jsonSerialize payload)

/-- The request assembled by `_build_request` from `post`: target URL, the
optional body bytes and the header dict handed over by `post`.  Sending the
request over the network is outside the embedding. -/
structure BuiltRequest where
  url : String
  body : Option (List Nat)
  headers : List (String × String)
  deriving DecidableEq

/-- Python `dict.setdefault`: keep an existing entry for the key, append
the default entry otherwise (dict keys compare by exact string equality and
insertion order is preserved). -/
def setdefault (hs : List (String × String)) (k v : String) :
    List (String × String) :=
  match hs.lookup k with
  | some _ => hs
  | none => hs ++ [(k, v)]

/-- The request assembly performed by `post` (`simple_requests.py`, lines
134 to 154): body starts as the `data` argument and caller headers are
copied; when a `json` argument is given the body becomes `json_dumps(json)`
and a Content-Type of "application/json" is set unless the caller headers
already contain one. -/
def post (url : String) (json : Option Value) (data : Option (List Nat))
    (headers : Option (List (String × String))) : BuiltRequest :=
  let body := data
  let req_headers :=
    match headers with
    | some hs => hs
    | none => []
  match json with
  | some v =>
    { url := url, body := some (json_dumps v),
      headers := setdefault req_headers "Content-Type" "application/json" }
  | none => { url := url, body := body, headers := req_headers }

theorem parse_objects_nil (svc : DataSyncService) :
    svc.parse_objects [] = svc :=
  rfl

theorem parsePrintStats_idem (v : Value) (r : PrintStats) :
    parsePrintStats v (parsePrintStats v r) = parsePrintStats v r := by
  unfold parsePrintStats
  cases h1 : (v.getField "filename").bind Value.asStr <;>
    cases h2 : (v.getField "state").bind Value.asStr <;> simp [h1, h2]

theorem parseDisplayStatus_idem (v : Value) (r : DisplayStatus) :
    parseDisplayStatus v (parseDisplayStatus v r) = parseDisplayStatus v r := by
  unfold parseDisplayStatus
  cases h1 : (v.getField "message").bind Value.asStr <;> simp [h1]

theorem parseVirtualSDCard_idem (v : Value) (r : VirtualSDCard) :
    parseVirtualSDCard v (parseVirtualSDCard v r) = parseVirtualSDCard v r := by
  unfold parseVirtualSDCard
  cases h1 : (v.getField "progress").bind Value.asNum <;> simp [h1]

theorem parse_objects_idem (svc : DataSyncService)
    (status : List (String × Value)) :
    (svc.parse_objects status).parse_objects status = svc.parse_objects status := by
  unfold DataSyncService.parse_objects
  cases h1 : lookupField status "print_stats" <;>
    cases h2 : lookupField status "display_status" <;>
      cases h3 : lookupField status "virtual_sdcard" <;>
        simp [h1, h2, h3, parsePrintStats_idem, parseDisplayStatus_idem,
          parseVirtualSDCard_idem]

theorem parse_objects_klippy (svc : DataSyncService)
    (status : List (String × Value)) :
    (svc.parse_objects status).klippy_ready = svc.klippy_ready := by
  unfold DataSyncService.parse_objects
  rfl

theorem set_klippy_ready_eq (svc : DataSyncService) (b : Bool)
    (h : svc.klippy_ready = b) : { svc with klippy_ready := b } = svc := by
  cases svc
  cases h
  rfl

theorem pollReady_false_of_never_ready (remote : Remote)
    (h : ∀ n, klippyState (remote.server_info n) ≠ some "ready") :
    ∀ fuel n, pollReady remote n fuel = false := by
  intro fuel
  induction fuel with
  | zero => intro n; rfl
  | succ k ih =>
    intro n
    unfold pollReady
    simp [h n, ih (n + 1)]

/-- C1: for every construction label (covering both construction
signatures), a newly constructed engine has `klippy_ready` false and every
State Record at its declared default: PrintStats.filename absent,
PrintStats.state "error", DisplayStatus.message absent,
VirtualSDCard.progress 0. -/
theorem c1_construction_defaults (label : Option String) :
    (mkDataSyncService label).klippy_ready = false ∧
    (mkDataSyncService label).print_stats.filename = none ∧
    (mkDataSyncService label).print_stats.state = "error" ∧
    (mkDataSyncService label).display_status.message = none ∧
    (mkDataSyncService label).virtual_sdcard.progress = 0 :=
  ⟨rfl, rfl, rfl, rfl, rfl⟩

/-- C3: applying a payload whose only key is `print_stats` with filename
"test.gcode" and state "printing" updates exactly the PrintStats record to
those values and leaves the DisplayStatus and VirtualSDCard records (and
the `klippy_ready` flag) unchanged, for every engine state. -/
theorem c3_print_stats_frame (svc : DataSyncService) :
    (svc.parse_objects
        [("print_stats",
          Value.obj [("filename", Value.str "test.gcode"),
                     ("state", Value.str "printing")])]).print_stats.filename
        = some "test.gcode" ∧
    (svc.parse_objects
        [("print_stats",
          Value.obj [("filename", Value.str "test.gcode"),
                     ("state", Value.str "printing")])]).print_stats.state
        = "printing" ∧
    (svc.parse_objects
        [("print_stats",
          Value.obj [("filename", Value.str "test.gcode"),
                     ("state", Value.str "printing")])]).display_status
        = svc.display_status ∧
    (svc.parse_objects
        [("print_stats",
          Value.obj [("filename", Value.str "test.gcode"),
                     ("state", Value.str "printing")])]).virtual_sdcard
        = svc.virtual_sdcard ∧
    (svc.parse_objects
        [("print_stats",
          Value.obj [("filename", Value.str "test.gcode"),
                     ("state", Value.str "printing")])]).klippy_ready
        = svc.klippy_ready := by
  refine ⟨?_, ?_, ?_, ?_, ?_⟩ <;>
    simp [DataSyncService.parse_objects, parsePrintStats, lookupField,
      Value.getField, Value.asStr]

/-- C4: applying an empty status payload to any engine state is a no-op:
the engine (hence every State Record field) is exactly its pre-call
value. -/
theorem c4_empty_payload_noop (svc : DataSyncService) :
    svc.parse_objects [] = svc :=
  rfl

/-- C2: the status-application operation is a total pure function of the
payload and prior engine state (the embedding of "terminates normally
without raising and performs no I/O"), and it is defensive: every field
whose value cannot be confidently parsed from the payload — object key
absent, field absent, or field of unexpected type — keeps the record's
prior value, and the engine flag is untouched. -/
theorem c2_parse_total_defensive (status : List (String × Value))
    (svc : DataSyncService) :
    ((lookupField status "print_stats").bind
        (fun v => (v.getField "filename").bind Value.asStr) = none →
      (svc.parse_objects status).print_stats.filename
        = svc.print_stats.filename) ∧
    ((lookupField status "print_stats").bind
        (fun v => (v.getField "state").bind Value.asStr) = none →
      (svc.parse_objects status).print_stats.state
        = svc.print_stats.state) ∧
    ((lookupField status "display_status").bind
        (fun v => (v.getField "message").bind Value.asStr) = none →
      (svc.parse_objects status).display_status.message
        = svc.display_status.message) ∧
    ((lookupField status "virtual_sdcard").bind
        (fun v => (v.getField "progress").bind Value.asNum) = none →
      (svc.parse_objects status).virtual_sdcard.progress
        = svc.virtual_sdcard.progress) ∧
    (svc.parse_objects status).klippy_ready = svc.klippy_ready := by
  refine ⟨?_, ?_, ?_, ?_, parse_objects_klippy svc status⟩
  · intro h
    cases h1 : lookupField status "print_stats" with
    | none => simp [DataSyncService.parse_objects, h1]
    | some v =>
      rw [h1] at h
      simp only [Option.some_bind'] at h
      simp [DataSyncService.parse_objects, h1, parsePrintStats, h]
  · intro h
    cases h1 : lookupField status "print_stats" with
    | none => simp [DataSyncService.parse_objects, h1]
    | some v =>
      rw [h1] at h
      simp only [Option.some_bind'] at h
      simp [DataSyncService.parse_objects, h1, parsePrintStats, h]
  · intro h
    cases h1 : lookupField status "display_status" with
    | none => simp [DataSyncService.parse_objects, h1]
    | some v =>
      rw [h1] at h
      simp only [Option.some_bind'] at h
      simp [DataSyncService.parse_objects, h1, parseDisplayStatus, h]
  · intro h
    cases h1 : lookupField status "virtual_sdcard" with
    | none => simp [DataSyncService.parse_objects, h1]
    | some v =>
      rw [h1] at h
      simp only [Option.some_bind'] at h
      simp [DataSyncService.parse_objects, h1, parseVirtualSDCard, h]

/-- Witness for C2 at a concrete input: the empty payload against a
concretely constructed engine, each defensiveness hypothesis discharged by
evaluation. -/
theorem c2_parse_total_defensive_witness :
    ((mkDataSyncService (some "Printer")).parse_objects []).print_stats.filename
      = (mkDataSyncService (some "Printer")).print_stats.filename ∧
    ((mkDataSyncService (some "Printer")).parse_objects []).print_stats.state
      = (mkDataSyncService (some "Printer")).print_stats.state ∧
    ((mkDataSyncService (some "Printer")).parse_objects []).display_status.message
      = (mkDataSyncService (some "Printer")).display_status.message ∧
    ((mkDataSyncService (some "Printer")).parse_objects []).virtual_sdcard.progress
      = (mkDataSyncService (some "Printer")).virtual_sdcard.progress :=
  ⟨(c2_parse_total_defensive [] (mkDataSyncService (some "Printer"))).1 rfl,
   (c2_parse_total_defensive [] (mkDataSyncService (some "Printer"))).2.1 rfl,
   (c2_parse_total_defensive [] (mkDataSyncService (some "Printer"))).2.2.1 rfl,
   (c2_parse_total_defensive [] (mkDataSyncService (some "Printer"))).2.2.2.1 rfl⟩

/-- C5: against a remote whose readiness query always answers a non-"ready"
state, `resync` fails with `Timeout` once the configured bound (any poll
budget) elapses, the resulting `klippy_ready` is false, and every State
Record retains its prior value. -/
theorem c5_resync_timeout (remote : Remote) (fuel : Nat)
    (svc : DataSyncService)
    (h : ∀ n, klippyState (remote.server_info n) ≠ some "ready") :
    svc.resync remote fuel
        = ({ svc with klippy_ready := false }, some SyncError.timeout) ∧
    (svc.resync remote fuel).1.klippy_ready = false ∧
    (svc.resync remote fuel).1.print_stats = svc.print_stats ∧
    (svc.resync remote fuel).1.display_status = svc.display_status ∧
    (svc.resync remote fuel).1.virtual_sdcard = svc.virtual_sdcard := by
  have hp : pollReady remote 0 fuel = false :=
    pollReady_false_of_never_ready remote h fuel 0
  unfold DataSyncService.resync
  simp [hp]

/-- Witness for C5 at a concrete input: the always-"not_ready" remote, a
poll budget of 2 and a freshly constructed engine. -/
theorem c5_resync_timeout_witness :
    (mkDataSyncService none).resync notReadyRemote 2
      = ({ mkDataSyncService none with klippy_ready := false },
         some SyncError.timeout) :=
  (c5_resync_timeout notReadyRemote 2 (mkDataSyncService none)
    (fun _ => by
      simp [notReadyRemote, klippyState, Value.getField, lookupField,
        Value.asStr])).1

/-- C6: against a remote that reports readiness on the first poll, an empty
object inventory and an empty status payload, `resync` on a newly
constructed engine (either construction signature) succeeds, sets
`klippy_ready` true, and leaves every State Record at its default
values. -/
theorem c6_resync_ready_defaults (remote : Remote) (fuel : Nat)
    (label : Option String)
    (h0 : klippyState (remote.server_info 0) = some "ready")
    (hobj : remote.objects_list = [])
    (hstat : remote.status_for [] = []) :
    (mkDataSyncService label).resync remote (fuel + 1)
        = ({ mkDataSyncService label with klippy_ready := true }, none) ∧
    ((mkDataSyncService label).resync remote (fuel + 1)).2 = none ∧
    ((mkDataSyncService label).resync remote (fuel + 1)).1.klippy_ready = true ∧
    ((mkDataSyncService label).resync remote (fuel + 1)).1.print_stats
        = ({} : PrintStats) ∧
    ((mkDataSyncService label).resync remote (fuel + 1)).1.display_status
        = ({} : DisplayStatus) ∧
    ((mkDataSyncService label).resync remote (fuel + 1)).1.virtual_sdcard
        = ({} : VirtualSDCard) := by
  have hp : pollReady remote 0 (fuel + 1) = true := by
    unfold pollReady
    simp [h0]
  unfold DataSyncService.resync
  rw [hp]
  simp [hobj, hstat, parse_objects_nil, mkDataSyncService]

/-- Witness for C6 at a concrete input: the immediately ready remote with
empty inventory and status, a poll budget of 1 and the legacy construction
signature. -/
theorem c6_resync_ready_defaults_witness :
    (mkDataSyncService none).resync readyRemote 1
      = ({ mkDataSyncService none with klippy_ready := true }, none) :=
  (c6_resync_ready_defaults readyRemote 0 none
    (by simp [readyRemote, klippyState, Value.getField, lookupField,
      Value.asStr])
    rfl rfl).1

/-- C7: `resync` against a fixed set of remote responses is idempotent —
running it a second time from the state the first run produced returns that
very state (and the same outcome), so the second resync changes no State
Record field relative to the first. -/
theorem c7_resync_idempotent (svc : DataSyncService) (remote : Remote)
    (fuel : Nat) :
    (svc.resync remote fuel).1.resync remote fuel = svc.resync remote fuel := by
  unfold DataSyncService.resync
  cases hp : pollReady remote 0 fuel with
  | false => simp
  | true =>
    simp only [if_pos rfl, if_true]
    have hk : (({ svc with klippy_ready := true }).parse_objects
        (remote.status_for remote.objects_list)).klippy_ready = true :=
      parse_objects_klippy { svc with klippy_ready := true }
        (remote.status_for remote.objects_list)
    rw [set_klippy_ready_eq _ _ hk, parse_objects_idem]

theorem decodeAux_length_le : ∀ (fuel : Nat) (l : List Nat),
    (decodeAux fuel l).length ≤ fuel
  | 0, l => by cases l <;> simp [decodeAux]
  | _ + 1, [] => by simp [decodeAux]
  | fuel + 1, b :: rest => by
    simp only [decodeAux, List.length_cons]
    exact Nat.succ_le_succ (decodeAux_length_le fuel _)

theorem utf8DecodeReplace_length_le (bytes : List Nat) :
    (utf8DecodeReplace bytes).length ≤ bytes.length :=
  decodeAux_length_le bytes.length bytes

theorem utf8DecodeReplace_ne_nil (b : Nat) (rest : List Nat) :
    utf8DecodeReplace (b :: rest) ≠ [] := by
  simp [utf8DecodeReplace, decodeAux]

theorem string_mk_eq_empty_iff (cs : List Char) :
    String.mk cs = "" ↔ cs = [] := by
  constructor
  · intro h
    have h2 := congrArg String.data h
    simpa using h2
  · intro h
    rw [h]

/-- C8: `raise_for_status` raises `HTTPError` exactly when the status code
is at least 400; for a status code below 400 it returns normally.  The
embedding is a pure function of the response, so the response fields are
unchanged by construction. -/
theorem c8_raise_for_status_iff (r : Response) :
    (Response.raise_for_status r = Except.ok () ↔ r.status_code < 400) ∧
    ((∃ msg, Response.raise_for_status r
        = Except.error (SRError.httpError msg)) ↔ 400 ≤ r.status_code) := by
  unfold Response.raise_for_status
  by_cases h : (400 : Int) ≤ r.status_code
  · rw [if_pos h]
    exact ⟨iff_of_false (by simp) (by omega), iff_of_true ⟨_, rfl⟩ h⟩
  · rw [if_neg h]
    exact ⟨iff_of_true rfl (by omega), iff_of_false (by simp) (by omega)⟩

/-- C9: `Response.text` is a total function of the content bytes (the
embedding of "never raises"): it yields a string of at most one character
per byte, the string is empty exactly when the content is, a well-formed
multi-byte sequence decodes to its code point, and bytes that are not valid
UTF-8 are replaced by U+FFFD instead of failing (shown for an invalid lead
byte and for a truncated sequence). -/
theorem c9_text_total_replace (r : Response) :
    (Response.text r).length ≤ r.content.length ∧
    (Response.text r = "" ↔ r.content = []) ∧
    Response.text { status_code := 200, headers := [], content := [0x68, 0xC3, 0xA9] }
      = String.mk [Char.ofNat 0x68, Char.ofNat 0xE9] ∧
    Response.text { status_code := 200, headers := [], content := [0x68, 0xFF, 0x69] }
      = String.mk [Char.ofNat 0x68, Char.ofNat 0xFFFD, Char.ofNat 0x69] ∧
    Response.text { status_code := 200, headers := [], content := [0xE2, 0x82] }
      = String.mk [Char.ofNat 0xFFFD] := by
  refine ⟨?_, ?_, by decide, by decide, by decide⟩
  · exact utf8DecodeReplace_length_le r.content
  · unfold Response.text
    rw [string_mk_eq_empty_iff]
    cases hc : r.content with
    | nil => simp [utf8DecodeReplace, decodeAux]
    | cons b rest =>
      constructor
      · intro h
        exact absurd h (utf8DecodeReplace_ne_nil b rest)
      · intro h
        exact absurd h (List.cons_ne_nil b rest)

theorem lookup_append {α β : Type} [BEq α] (l1 l2 : List (α × β)) (a : α) :
    (l1 ++ l2).lookup a
      = match l1.lookup a with
        | some w => some w
        | none => l2.lookup a := by
  induction l1 with
  | nil => simp
  | cons p t ih =>
    obtain ⟨k, b⟩ := p
    cases hk : a == k with
    | true => simp [List.lookup_cons, hk]
    | false => simp [List.lookup_cons, hk, ih]

/-- C10: for every call to `post` with a json argument, the assembled body
is the UTF-8 encoding of the JSON serialization of that argument, the
resulting header dict maps Content-Type to the caller-supplied value when
the caller headers contain that key and to "application/json" otherwise,
and every other header key is looked up unchanged. -/
theorem c10_post_json_body_headers (url : String) (v : Value)
    (data : Option (List Nat)) (hs : List (String × String)) :
    (post url (some v) data (some hs)).body
        = some (utf8Encode (jsonSerialize v)) ∧
    (post url (some v) data (some hs)).headers.lookup "Content-Type"
        = some ((hs.lookup "Content-Type").getD "application/json") ∧
    (∀ k, (k == "Content-Type") = false →
      (post url (some v) data (some hs)).headers.lookup k
        = hs.lookup k) := by
  refine ⟨rfl, ?_, ?_⟩
  · show (setdefault hs "Content-Type" "application/json").lookup "Content-Type"
        = some ((hs.lookup "Content-Type").getD "application/json")
    unfold setdefault
    cases hcl : hs.lookup "Content-Type" with
    | some w => simp [hcl]
    | none => simp [lookup_append, hcl]
  · intro k hk
    show (setdefault hs "Content-Type" "application/json").lookup k
        = hs.lookup k
    unfold setdefault
    cases hcl : hs.lookup "Content-Type" with
    | some w => rfl
    | none =>
      rw [lookup_append]
      cases hk2 : hs.lookup k with
      | some w => rfl
      | none => simp [List.lookup_cons, hk]

/-- Witness for C10 at a concrete input: a caller header list without a
Content-Type entry, whose other key is preserved by the assembly. -/
theorem c10_post_json_body_headers_witness :
    (post "http://printer/api" (some Value.null) none
        (some [("X-Api-Key", "abc")])).headers.lookup "X-Api-Key"
      = some "abc" :=
  (c10_post_json_body_headers "http://printer/api" Value.null none
    [("X-Api-Key", "abc")]).2.2 "X-Api-Key" rfl
